import Mathlib

/-!
Verification of the Automated Resume Relevance Check System.

The repository ships a React frontend (`src/frontend/src/pages`); the scoring
engine and batch orchestrator themselves are documented in the specification
but their implementation is not part of the source tree, so those parts are
modelled from the specification (each such definition says so in its doc
comment).  Frontend helpers (`calculateProgress`, `getScoreColor`,
`handleStartBatch`, the summary average, the hard-coded mock records) are
embedded directly from the JavaScript source.
-/

namespace ResumeRelevance

/-! ## Core numeric conventions -/

/-- Round-half-up rounding used by the verdict classifier:
`round(x) = ⌊x + 1/2⌋`, so `62.5 ↦ 63` and `74.999 ↦ 75`. -/
def roundHalfUp (q : ℚ) : ℤ := ⌊q + 1 / 2⌋

/-- Categorical fit verdict. -/
inductive Verdict
  | High
  | Medium
  | Low
deriving DecidableEq, Repr

/-- Modelled from the spec: the Verdict Classifier component is not in the
source tree.  `overallScore ≥ 75 → High`; `50 ≤ overallScore < 75 → Medium`;
`< 50 → Low`. -/
def verdictOf (o : ℤ) : Verdict :=
  if 75 ≤ o then .High else if 50 ≤ o then .Medium else .Low

/-! ## Frontend helpers embedded from `EvaluationResults.js` -/

/-- Embedded from `EvaluationResults.js` (`getScoreColor`): colour class for a
numeric score. -/
def getScoreColor (score : ℚ) : String :=
  if 75 ≤ score then "success.main"
  else if 50 ≤ score then "warning.main"
  else "error.main"

/-- Embedded from `EvaluationResults.js` (`getFitColor`): colour for a fit
label. -/
def getFitColor (fit : String) : String :=
  if fit = "High" then "success"
  else if fit = "Medium" then "warning"
  else if fit = "Low" then "error"
  else "default"

/-- Embedded from `EvaluationResults.js` (summary card): average relevance
score, `0` for an empty result list, otherwise `sum / length`. -/
def averageScoreValue (scores : List ℚ) : ℚ :=
  if 0 < scores.length then scores.sum / scores.length else 0

/-- One row of the mock evaluation results rendered by the results page,
embedded from `EvaluationResults.js` (`fetchResults`). -/
structure MockResult where
  id : ℕ
  resume_id : ℕ
  candidate_name : String
  relevance_score : ℚ
  skills_match_score : ℚ
  experience_match_score : ℚ
  education_match_score : ℚ
  overall_fit : String
  matched_skills : List String
  missing_skills : List String
deriving DecidableEq, Repr

/-- First mock row of `fetchResults` in `EvaluationResults.js`. -/
def johnSmithRow : MockResult :=
  { id := 1, resume_id := 101, candidate_name := "John Smith",
    relevance_score := 87.5, skills_match_score := 85.0,
    experience_match_score := 90.0, education_match_score := 85.0,
    overall_fit := "High",
    matched_skills := ["Python", "React", "AWS", "Docker"],
    missing_skills := ["Kubernetes", "GraphQL"] }

/-- Second mock row of `fetchResults` in `EvaluationResults.js`. -/
def sarahJohnsonRow : MockResult :=
  { id := 2, resume_id := 102, candidate_name := "Sarah Johnson",
    relevance_score := 72.3, skills_match_score := 70.0,
    experience_match_score := 75.0, education_match_score := 72.0,
    overall_fit := "Medium",
    matched_skills := ["Python", "SQL", "Machine Learning"],
    missing_skills := ["React", "AWS", "Docker"] }

/-- Third mock row of `fetchResults` in `EvaluationResults.js`. -/
def mikeChenRow : MockResult :=
  { id := 3, resume_id := 103, candidate_name := "Mike Chen",
    relevance_score := 45.8, skills_match_score := 40.0,
    experience_match_score := 50.0, education_match_score := 47.0,
    overall_fit := "Low",
    matched_skills := ["Java", "SQL"],
    missing_skills := ["Python", "React", "AWS", "Docker", "Machine Learning"] }

/-- Embedded from `EvaluationResults.js` (`fetchResults`): the three mock
rows rendered by the results page for the job of the current page (the page
fetches one `jobId` and renders all three rows for it). -/
def mockResults : List MockResult :=
  [johnSmithRow, sarahJohnsonRow, mikeChenRow]

/-! ## Skill normalizer, modelled from the spec (§4.2): the Skill Normalizer
component is not in the source tree. -/

/-- ASCII upper/lower pairs used by the case-insensitive comparison. -/
def upperLowerTable : List (Char × Char) :=
  [('A','a'),('B','b'),('C','c'),('D','d'),('E','e'),('F','f'),('G','g'),
   ('H','h'),('I','i'),('J','j'),('K','k'),('L','l'),('M','m'),('N','n'),
   ('O','o'),('P','p'),('Q','q'),('R','r'),('S','s'),('T','t'),('U','u'),
   ('V','v'),('W','w'),('X','x'),('Y','y'),('Z','z')]

/-- Lower-case one character via the ASCII table. -/
def lowerChar (c : Char) : Char :=
  match upperLowerTable.lookup c with
  | some l => l
  | none => c

/-- Drop leading space characters. -/
def dropLeadingSpaces : List Char → List Char
  | [] => []
  | c :: cs => if c = ' ' then dropLeadingSpaces cs else c :: cs

/-- Trim spaces from both ends of a character list. -/
def trimChars (l : List Char) : List Char :=
  (dropLeadingSpaces (dropLeadingSpaces l.reverse).reverse)

/-- Modelled from the spec (§4.2): the small alias table of the Skill
Normalizer ("JS" → "javascript", "k8s" → "kubernetes", and the §2 example
"ReactJS" = "React"). -/
def skillAliases : List (String × String) :=
  [("js", "javascript"), ("reactjs", "react"), ("k8s", "kubernetes")]

/-- Modelled from the spec (§4.2): the Skill Normalizer is not in the source
tree.  Unknown skills pass through lower-cased and whitespace-trimmed; known
aliases map to their canonical form.  Pure and total. -/
def normalizeSkill (s : String) : String :=
  let t := String.mk ((trimChars s.data).map lowerChar)
  match skillAliases.lookup t with
  | some c => c
  | none => t

/-! ## Similarity scorer, modelled from the spec (§4.3): the Similarity
Scorer component is not in the source tree. -/

/-- Modelled from the spec (§4.3): `matchedSkills = normalize(resume.skills)
∩ normalize(job.requiredSkills)`, represented as a finite set so the
comparison is order-independent. -/
def matchedSkills (resumeSkills requiredSkills : List String) : Finset String :=
  (requiredSkills.map normalizeSkill).toFinset ∩ (resumeSkills.map normalizeSkill).toFinset

/-- Modelled from the spec (§4.4): `missingSkills = job.requiredSkills −
matchedSkills`. -/
def missingSkills (resumeSkills requiredSkills : List String) : Finset String :=
  (requiredSkills.map normalizeSkill).toFinset \ matchedSkills resumeSkills requiredSkills

/-- Modelled from the spec (§4.3): skills score is
`100 × |matchedSkills| / |job.requiredSkills|`, and `100` when the job lists
no required skill. -/
def skillsScore (resumeSkills requiredSkills : List String) : ℚ :=
  let req := (requiredSkills.map normalizeSkill).toFinset
  if req.card = 0 then 100
  else 100 * (matchedSkills resumeSkills requiredSkills).card / req.card

/-- Modelled from the spec (§4.3): the experience score, with the four
clauses in the order the spec lists them — `years ≥ max` scores 100; within
`[min, max]` scores 100; below `min` scales linearly from 0 at 0 years to 100
at `min` years; above `max` by more than the tolerance band `tol` decays
linearly to a floor of 70 (because the first clause already covers every
`years ≥ max`, the decay clause is unreachable). -/
def experienceScore (tol years jmin jmax : ℚ) : ℚ :=
  if jmax ≤ years then 100
  else if jmin ≤ years ∧ years ≤ jmax then 100
  else if years < jmin then 100 * years / jmin
  else if jmax + tol < years then max 70 (100 - (years - (jmax + tol)))
  else 100

/-- Ordinal education levels (§3). -/
inductive EducationLevel
  | noDegree
  | associate
  | bachelor
  | master
  | doctorate
deriving DecidableEq, Repr

/-- Ordinal rank of an education level. -/
def EducationLevel.rank : EducationLevel → ℕ
  | .noDegree => 0
  | .associate => 1
  | .bachelor => 2
  | .master => 3
  | .doctorate => 4

/-- Modelled from the spec (§4.3): education score is 100 when the resume
level reaches the job minimum; otherwise it drops by the fixed step `stp`
per ordinal level of shortfall, floored at 20. -/
def educationScore (stp : ℚ) (resumeLevel jobMin : EducationLevel) : ℚ :=
  if jobMin.rank ≤ resumeLevel.rank then 100
  else max 20 (100 - stp * ((jobMin.rank : ℚ) - (resumeLevel.rank : ℚ)))

/-! ## Full evaluation pipeline, modelled from the spec (§3, §4.4). -/

/-- Job requirement (§3): required skills, experience bounds, minimum
education. -/
structure JobRequirement where
  requiredSkills : List String
  minYears : ℚ
  maxYears : ℚ
  minEducation : EducationLevel
deriving DecidableEq, Repr

/-- Parsed resume (§3): extracted skills, total years, highest education. -/
structure ParsedResume where
  skills : List String
  totalYears : ℚ
  education : EducationLevel
deriving DecidableEq, Repr

/-- Evaluation result (§3): three sub-scores, the overall score, the verdict
and the skill gap analysis. -/
structure EvaluationResult where
  skillsScore : ℚ
  experienceScore : ℚ
  educationScore : ℚ
  overallScore : ℤ
  verdict : Verdict
  matchedSkills : Finset String
  missingSkills : Finset String
deriving DecidableEq

/-- Modelled from the spec (§4.3–§4.4): the scoring pipeline.
`overallScore = round(0.5 × skillsScore + 0.3 × experienceScore +
0.2 × educationScore)` with round-half-up; the verdict is classified from the
overall score; `tol` and `stp` are the policy constants the spec leaves
configurable. -/
def evaluate (tol stp : ℚ) (job : JobRequirement) (resume : ParsedResume) :
    EvaluationResult :=
  let s := skillsScore resume.skills job.requiredSkills
  let e := experienceScore tol resume.totalYears job.minYears job.maxYears
  let d := educationScore stp resume.education job.minEducation
  let o := roundHalfUp (1 / 2 * s + 3 / 10 * e + 1 / 5 * d)
  { skillsScore := s
    experienceScore := e
    educationScore := d
    overallScore := o
    verdict := verdictOf o
    matchedSkills := matchedSkills resume.skills job.requiredSkills
    missingSkills := missingSkills resume.skills job.requiredSkills }

/-! ## Batch orchestrator, modelled from the spec (§4.5, §5, §8): the Batch
Orchestrator component is not in the source tree. -/

/-- Batch state machine states (§4.5). -/
inductive BatchStatus
  | Pending
  | Processing
  | Completed
  | Failed
  | Cancelled
deriving DecidableEq, Repr

/-- Point-in-time batch record kept by the orchestrator: counters, per-item
outcomes (`some` evaluation outcome, or `none` for a recorded per-item
failure) and the state-machine status. -/
structure BatchRun (β : Type) where
  processed : ℕ
  succeeded : ℕ
  failed : ℕ
  outcomes : List (Option β)
  status : BatchStatus

/-- Modelled from the spec (§4.5): one item completion updates the counters
and appends the item outcome; a per-item failure is downgraded to a recorded
outcome, never a batch failure. -/
def stepItem {β : Type} (b : BatchRun β) (o : Option β) : BatchRun β :=
  { b with
    processed := b.processed + 1
    succeeded := b.succeeded + (if o.isSome then 1 else 0)
    failed := b.failed + (if o.isSome then 0 else 1)
    outcomes := b.outcomes ++ [o] }

/-- Fresh batch state at the moment processing starts. -/
def initRun (β : Type) : BatchRun β :=
  { processed := 0, succeeded := 0, failed := 0, outcomes := [], status := .Processing }

/-- Modelled from the spec (§4.5, §7): run a batch.  An invalid job
requirement is fatal before any item is dispatched (`Failed`, nothing
processed); otherwise every item is evaluated independently by `f` (with
`none` standing for that item's extraction/scoring failure) and the batch
completes. -/
def runBatch {α β : Type} (jobValid : Bool) (f : α → Option β) (items : List α) :
    BatchRun β :=
  if jobValid then
    let final := items.foldl (fun b i => stepItem b (f i)) (initRun β)
    { final with status := .Completed }
  else
    { initRun β with status := .Failed }

/-- Modelled from the spec (§4.5, §5): cooperative cancellation.  The
cancellation flag flips after `k` items have been dispatched: each already
dispatched item still runs to its terminal outcome (first component), items
not yet dispatched are never started (second component). -/
def runCancel {α β : Type} (f : α → β) : List α → ℕ → List β × List α
  | [], _ => ([], [])
  | i :: rest, 0 => ([], i :: rest)
  | i :: rest, k + 1 =>
      let p := runCancel f rest k
      (f i :: p.1, p.2)

/-- Modelled from the spec (§4.5): terminal status after a run — `Cancelled`
exactly when cancellation left items unstarted, `Completed` otherwise. -/
def cancelStatus {α β : Type} (p : List β × List α) : BatchStatus :=
  if p.2.isEmpty then .Completed else .Cancelled

/-! ## Frontend batch page embedded from `BatchProcessing.js`. -/

/-- One mock batch record, embedded from `BatchProcessing.js`
(`fetchBatches`). -/
structure MockBatch where
  id : ℕ
  batch_name : String
  status : String
  total_resumes : ℕ
  processed_resumes : ℕ
  high_fit_count : ℕ
  medium_fit_count : ℕ
  low_fit_count : ℕ
  average_score : ℚ
deriving DecidableEq, Repr

/-- Embedded from `BatchProcessing.js` (`fetchBatches`): the three mock batch
records shown on the page. -/
def mockBatches : List MockBatch :=
  [ { id := 1, batch_name := "Senior Dev Batch 1", status := "completed",
      total_resumes := 25, processed_resumes := 25, high_fit_count := 8,
      medium_fit_count := 12, low_fit_count := 5, average_score := 67.3 },
    { id := 2, batch_name := "Data Science Batch 1", status := "processing",
      total_resumes := 30, processed_resumes := 18, high_fit_count := 5,
      medium_fit_count := 8, low_fit_count := 5, average_score := 72.1 },
    { id := 3, batch_name := "Full Stack Batch 1", status := "pending",
      total_resumes := 20, processed_resumes := 0, high_fit_count := 0,
      medium_fit_count := 0, low_fit_count := 0, average_score := 0 } ]

/-- Embedded from `BatchProcessing.js` (`calculateProgress`): `0` when the
batch has no resumes, otherwise `processed / total × 100`. -/
def calculateProgress (batch : MockBatch) : ℚ :=
  if batch.total_resumes = 0 then 0
  else ((batch.processed_resumes : ℚ) / (batch.total_resumes : ℚ)) * 100

/-- Form state of the create-batch dialog, embedded from
`BatchProcessing.js` (the `selectedJob`, `selectedResumes`, `batchName` and
`loading` React state; an unselected job is `none`). -/
structure FormState where
  selectedJob : Option ℕ
  selectedResumes : List ℕ
  batchName : String
  loading : Bool
deriving DecidableEq, Repr

/-- Payload submitted when a batch starts, embedded from
`BatchProcessing.js` (`batchData`). -/
structure BatchData where
  job_id : ℕ
  resume_ids : List ℕ
  batch_name : String
deriving DecidableEq, Repr

/-- Embedded from `BatchProcessing.js` (`handleCloseDialog`): resets the
dialog selections. -/
def handleCloseDialog (st : FormState) : FormState :=
  { st with selectedJob := none, selectedResumes := [], batchName := "" }

/-- Embedded from `BatchProcessing.js` (`handleStartBatch`): the guard
`if (!selectedJob || selectedResumes.length === 0) return;` leaves the state
unchanged and submits nothing; otherwise the batch payload is submitted and
the dialog is reset. -/
def handleStartBatch (st : FormState) : FormState × Option BatchData :=
  match st.selectedJob with
  | none => (st, none)
  | some j =>
      if st.selectedResumes = [] then (st, none)
      else (handleCloseDialog { st with loading := false },
            some { job_id := j, resume_ids := st.selectedResumes,
                   batch_name := st.batchName })

/-- Embedded from `BatchProcessing.js` (the Start Processing button):
`disabled={!selectedJob || selectedResumes.length === 0 || loading}`. -/
def startDisabled (st : FormState) : Bool :=
  st.selectedJob.isNone || st.selectedResumes.isEmpty || st.loading

/-! ## Concrete inputs used in examples and witnesses. -/

/-- Job of the spec §8 examples: skills Python/React/AWS/Docker, 3–7 years,
bachelor minimum. -/
def exampleJob : JobRequirement :=
  { requiredSkills := ["Python", "React", "AWS", "Docker"],
    minYears := 3, maxYears := 7, minEducation := .bachelor }

/-- Same job with its required skills stored in canonical (normalized) form,
as §3 prescribes for `JobRequirement`. -/
def exampleJobNormalized : JobRequirement :=
  { requiredSkills := ["python", "react", "aws", "docker"],
    minYears := 3, maxYears := 7, minEducation := .bachelor }

/-- Resume of the second spec §8 example: Python/SQL/Machine Learning,
4 years, bachelor. -/
def exampleResumeSecond : ParsedResume :=
  { skills := ["Python", "SQL", "Machine Learning"],
    totalYears := 4, education := .bachelor }

/-- Batch record with no resumes at all, exercising the division guard. -/
def zeroResumesBatch : MockBatch :=
  { id := 9, batch_name := "empty", status := "pending",
    total_resumes := 0, processed_resumes := 0, high_fit_count := 0,
    medium_fit_count := 0, low_fit_count := 0, average_score := 0 }

/-- Dialog state with a job and one resume selected while a start request is
in flight. -/
def inFlightFormState : FormState :=
  { selectedJob := some 1, selectedResumes := [101],
    batchName := "Batch_2024-01-15", loading := true }

/-- Dialog state with a job selected but no resumes. -/
def noResumesFormState : FormState :=
  { selectedJob := some 1, selectedResumes := [],
    batchName := "Batch_2024-01-15", loading := false }

/-- Dialog state ready to start: a job and one resume selected, idle. -/
def readyFormState : FormState :=
  { selectedJob := some 1, selectedResumes := [101],
    batchName := "Batch_2024-01-15", loading := false }

/-! ## Helper lemmas -/

/-- Permutation-equal lists have the same `toFinset`. -/
lemma toFinset_perm_eq {α : Type} [DecidableEq α] {l₁ l₂ : List α}
    (h : l₁.Perm l₂) : l₁.toFinset = l₂.toFinset := by
  ext a
  simp [List.mem_toFinset, h.mem_iff]

/-- The label of a verdict as it appears in rendered rows. -/
def verdictLabel : Verdict → String
  | .High => "High"
  | .Medium => "Medium"
  | .Low => "Low"

/-! ## Claim theorems -/

/-- Claim C2: the fit verdict is determined by the overall score alone with
thresholds `≥ 75 → High`, `50 ≤ · < 75 → Medium`, `< 50 → Low`; round-half-up
sends `74.999` to `75`, which classifies High; and the results page colour
helper `getScoreColor` classifies with exactly the same three thresholds,
agreeing with the verdict colour of `getFitColor`. -/
theorem verdict_thresholds_consistent (o : ℤ) (s : ℚ) :
    (verdictOf o = .High ↔ 75 ≤ o) ∧
    (verdictOf o = .Medium ↔ 50 ≤ o ∧ o < 75) ∧
    (verdictOf o = .Low ↔ o < 50) ∧
    roundHalfUp (74.999 : ℚ) = 75 ∧
    verdictOf (roundHalfUp (74.999 : ℚ)) = .High ∧
    (getScoreColor s = "success.main" ↔ 75 ≤ s) ∧
    (getScoreColor s = "warning.main" ↔ 50 ≤ s ∧ s < 75) ∧
    (getScoreColor s = "error.main" ↔ s < 50) ∧
    getScoreColor (o : ℚ) = getFitColor (verdictLabel (verdictOf o)) ++ ".main" := by
  have hround : roundHalfUp (74.999 : ℚ) = 75 := by
    norm_num [roundHalfUp, Int.floor_eq_iff]
  refine ⟨?_, ?_, ?_, hround, ?_, ?_, ?_, ?_, ?_⟩
  · unfold verdictOf
    split_ifs <;> simp_all
  · unfold verdictOf
    split_ifs <;> simp_all <;> omega
  · unfold verdictOf
    split_ifs <;> simp_all <;> omega
  · rw [hround]
    unfold verdictOf
    norm_num
  · unfold getScoreColor
    split_ifs <;> simp_all
  · unfold getScoreColor
    split_ifs <;> simp_all <;> linarith
  · unfold getScoreColor
    split_ifs <;> simp_all <;> linarith
  · unfold verdictOf getScoreColor verdictLabel getFitColor
    have h75 : ((75 : ℤ) ≤ o) ↔ ((75 : ℚ) ≤ (o : ℚ)) := by exact_mod_cast Iff.rfl
    have h50 : ((50 : ℤ) ≤ o) ↔ ((50 : ℚ) ≤ (o : ℚ)) := by exact_mod_cast Iff.rfl
    split_ifs <;> simp_all

/-- Claim C8: `calculateProgress` is total and division-safe — `0` when the
batch has no resumes, `processed / total × 100` otherwise, and within
`[0, 100]` whenever the processed count does not exceed the total. -/
theorem calculateProgress_safe (b : MockBatch) :
    (b.total_resumes = 0 → calculateProgress b = 0) ∧
    (b.total_resumes ≠ 0 →
      calculateProgress b = ((b.processed_resumes : ℚ) / (b.total_resumes : ℚ)) * 100) ∧
    (b.processed_resumes ≤ b.total_resumes →
      0 ≤ calculateProgress b ∧ calculateProgress b ≤ 100) := by
  refine ⟨fun h => by simp [calculateProgress, h], fun h => by simp [calculateProgress, h], ?_⟩
  intro hle
  unfold calculateProgress
  split_ifs with h0
  · norm_num
  · have htpos : (0 : ℚ) < (b.total_resumes : ℚ) := by
      exact_mod_cast Nat.pos_of_ne_zero h0
    constructor
    · positivity
    · have hfrac : (b.processed_resumes : ℚ) / (b.total_resumes : ℚ) ≤ 1 := by
        rw [div_le_one htpos]
        exact_mod_cast hle
      nlinarith

/-- Claim C8 witness: the guard and the bounds evaluated on concrete batch
records, including the mock record with 18 of 30 resumes processed. -/
theorem calculateProgress_safe_witness :
    calculateProgress zeroResumesBatch = 0 ∧
    calculateProgress (mockBatches.get ⟨1, by simp [mockBatches]⟩) =
      ((18 : ℚ) / 30) * 100 ∧
    (0 ≤ calculateProgress (mockBatches.get ⟨1, by simp [mockBatches]⟩) ∧
      calculateProgress (mockBatches.get ⟨1, by simp [mockBatches]⟩) ≤ 100) :=
  ⟨(calculateProgress_safe _).1 rfl,
   (calculateProgress_safe _).2.1 (by simp [mockBatches]),
   (calculateProgress_safe _).2.2 (by simp [mockBatches])⟩

/-- Claim C9: the summary average score is total over the empty case — `0`
for an empty result list, the arithmetic mean otherwise, and it stays within
`[0, 100]` when every score does. -/
theorem averageScoreValue_total (scores : List ℚ) :
    averageScoreValue [] = 0 ∧
    (scores ≠ [] → averageScoreValue scores = scores.sum / scores.length) ∧
    ((∀ x ∈ scores, 0 ≤ x ∧ x ≤ 100) →
      0 ≤ averageScoreValue scores ∧ averageScoreValue scores ≤ 100) := by
  refine ⟨by simp [averageScoreValue], ?_, ?_⟩
  · intro hne
    have hlen : 0 < scores.length := List.length_pos.mpr hne
    simp [averageScoreValue, hlen]
  · intro hall
    unfold averageScoreValue
    split_ifs with hlen
    · have hlpos : (0 : ℚ) < (scores.length : ℚ) := by exact_mod_cast hlen
      have hsum0 : 0 ≤ scores.sum := List.sum_nonneg fun x hx => (hall x hx).1
      have hsum100 : scores.sum ≤ (scores.length : ℚ) * 100 := by
        have := List.sum_le_card_nsmul scores 100 fun x hx => (hall x hx).2
        simpa [nsmul_eq_mul] using this
      constructor
      · positivity
      · rw [div_le_iff₀ hlpos]
        linarith
    · norm_num

/-- Claim C9 witness: the average of the three rendered mock relevance scores
is their arithmetic mean and lies in `[0, 100]`. -/
theorem averageScoreValue_total_witness :
    averageScoreValue (mockResults.map (fun r => r.relevance_score)) =
      (mockResults.map (fun r => r.relevance_score)).sum /
        ((mockResults.map (fun r => r.relevance_score)).length : ℚ) ∧
    (0 ≤ averageScoreValue (mockResults.map (fun r => r.relevance_score)) ∧
      averageScoreValue (mockResults.map (fun r => r.relevance_score)) ≤ 100) :=
  ⟨(averageScoreValue_total _).2.1
      (by simp [mockResults]),
   (averageScoreValue_total _).2.2
      (by
        simp [mockResults, johnSmithRow, sarahJohnsonRow, mikeChenRow]
        norm_num)⟩

/-- Claim C10 counterexample: with a job and one resume selected but a start
request in flight (`loading = true`), the Start Processing button is
disabled although the claimed disabling condition — no job selected or no
resume selected — is false, so the control is not disabled in *exactly*
those states. -/
theorem startDisabled_beyond_precondition :
    startDisabled inFlightFormState = true ∧
    ¬ (inFlightFormState.selectedJob = none ∨ inFlightFormState.selectedResumes = []) := by
  constructor
  · rfl
  · simp [inFlightFormState]

/-- Claim C10 (amended): when no job is selected or no resume is selected,
`handleStartBatch` submits nothing and leaves the state unchanged; the start
control is disabled exactly when no job is selected, no resume is selected,
or a start request is already in flight; and any submitted batch payload
carries the selected job and a non-empty resume list. -/
theorem handleStartBatch_guard (st : FormState) :
    (st.selectedJob = none ∨ st.selectedResumes = [] →
      handleStartBatch st = (st, none)) ∧
    (startDisabled st = true ↔
      st.selectedJob = none ∨ st.selectedResumes = [] ∨ st.loading = true) ∧
    (∀ bd : BatchData, (handleStartBatch st).2 = some bd →
      st.selectedJob = some bd.job_id ∧ bd.resume_ids = st.selectedResumes ∧
        bd.resume_ids ≠ []) := by
  refine ⟨?_, ?_, ?_⟩
  · rintro (hj | hr)
    · simp [handleStartBatch, hj]
    · cases hj : st.selectedJob <;> simp [handleStartBatch, hj, hr]
  · cases hj : st.selectedJob <;>
      simp [startDisabled, hj, List.isEmpty_iff, Option.isNone]
  · intro bd hbd
    cases hj : st.selectedJob with
    | none => simp [handleStartBatch, hj] at hbd
    | some j =>
      by_cases hr : st.selectedResumes = []
      · simp [handleStartBatch, hj, hr] at hbd
      · simp [handleStartBatch, hj, hr] at hbd
        subst hbd
        exact ⟨rfl, rfl, hr⟩

/-- Claim C10 witness: the guard evaluated on a state with no resumes
selected, the disabled condition on the in-flight state, and a successful
submission carrying the selected job and resume list. -/
theorem handleStartBatch_guard_witness :
    handleStartBatch noResumesFormState = (noResumesFormState, none) ∧
    (startDisabled inFlightFormState = true ↔
      inFlightFormState.selectedJob = none ∨
        inFlightFormState.selectedResumes = [] ∨ inFlightFormState.loading = true) ∧
    (readyFormState.selectedJob =
        some ((handleStartBatch readyFormState).2.getD
          { job_id := 0, resume_ids := [], batch_name := "" }).job_id ∧
      ((handleStartBatch readyFormState).2.getD
          { job_id := 0, resume_ids := [], batch_name := "" }).resume_ids ≠ []) :=
  ⟨(handleStartBatch_guard _).1 (Or.inr rfl),
   (handleStartBatch_guard inFlightFormState).2.1,
   by
    have h := (handleStartBatch_guard readyFormState).2.2
        ((handleStartBatch readyFormState).2.getD
          { job_id := 0, resume_ids := [], batch_name := "" }) rfl
    exact ⟨h.1, h.2.2⟩⟩

/-- Claim C5: with no required skill the skills score is 100; with at least
one required skill it is `100 × |matchedSkills| / |requiredSkillSet|`; and
both the score and the matched set are invariant under reordering of either
skill list. -/
theorem skillsScore_spec (resumeSkills requiredSkills rs2 req2 : List String) :
    (requiredSkills = [] → skillsScore resumeSkills requiredSkills = 100) ∧
    (requiredSkills ≠ [] →
      skillsScore resumeSkills requiredSkills =
        100 * ((matchedSkills resumeSkills requiredSkills).card : ℚ) /
          (((requiredSkills.map normalizeSkill).toFinset.card : ℚ))) ∧
    (resumeSkills.Perm rs2 → requiredSkills.Perm req2 →
      skillsScore resumeSkills requiredSkills = skillsScore rs2 req2 ∧
      matchedSkills resumeSkills requiredSkills = matchedSkills rs2 req2) := by
  refine ⟨?_, ?_, ?_⟩
  · intro h
    simp [skillsScore, h]
  · intro h
    obtain ⟨a, t, rfl⟩ := List.exists_cons_of_ne_nil h
    have hmem : normalizeSkill a ∈ ((a :: t).map normalizeSkill).toFinset := by
      simp
    have hcard : ((a :: t).map normalizeSkill).toFinset.card ≠ 0 :=
      Finset.card_ne_zero_of_mem hmem
    simp only [skillsScore, if_neg hcard]
  · intro hres hreq
    have h1 : (resumeSkills.map normalizeSkill).toFinset = (rs2.map normalizeSkill).toFinset :=
      toFinset_perm_eq (hres.map normalizeSkill)
    have h2 : (requiredSkills.map normalizeSkill).toFinset = (req2.map normalizeSkill).toFinset :=
      toFinset_perm_eq (hreq.map normalizeSkill)
    constructor
    · simp [skillsScore, matchedSkills, h1, h2]
    · simp [matchedSkills, h1, h2]

/-- Claim C5 witness: the spec §8 example — one of four required skills
matched gives score `100 × 1 / 4`, invariant under reordering the required
skills — and a job with no required skills scores 100. -/
theorem skillsScore_spec_witness :
    skillsScore [] [] = 100 ∧
    skillsScore exampleResumeSecond.skills exampleJob.requiredSkills =
      100 * ((matchedSkills exampleResumeSecond.skills exampleJob.requiredSkills).card : ℚ) /
        (((exampleJob.requiredSkills.map normalizeSkill).toFinset.card : ℚ)) ∧
    skillsScore exampleResumeSecond.skills exampleJob.requiredSkills =
      skillsScore ["SQL", "Machine Learning", "Python"]
        ["Docker", "React", "AWS", "Python"] :=
  ⟨(skillsScore_spec [] [] [] []).1 rfl,
   (skillsScore_spec exampleResumeSecond.skills exampleJob.requiredSkills [] []).2.1
      (by simp [exampleJob]),
   ((skillsScore_spec exampleResumeSecond.skills exampleJob.requiredSkills
        ["SQL", "Machine Learning", "Python"]
        ["Docker", "React", "AWS", "Python"]).2.2
      (by decide) (by decide)).1⟩

/-- Claim C6: the experience score is a piecewise function of resume years
that always lies in `[0, 100]`, equals 100 on the whole interval
`[job.min, job.max]` and beyond `job.max`, scales linearly as
`100 × years / job.min` below `job.min`, and never drops below 70 when the
resume years exceed `job.max`. -/
theorem experienceScore_spec (tol years jmin jmax : ℚ)
    (hy : 0 ≤ years) (hmm : jmin ≤ jmax) :
    0 ≤ experienceScore tol years jmin jmax ∧
    experienceScore tol years jmin jmax ≤ 100 ∧
    (jmin ≤ years → experienceScore tol years jmin jmax = 100) ∧
    (years < jmin → experienceScore tol years jmin jmax = 100 * years / jmin) ∧
    (jmax < years → 70 ≤ experienceScore tol years jmin jmax) := by
  unfold experienceScore
  split_ifs with h1 h2 h3 h4
  · exact ⟨by norm_num, by norm_num, fun _ => rfl, fun hlt => absurd hlt (by linarith), fun _ => by norm_num⟩
  · exact ⟨by norm_num, by norm_num, fun _ => rfl, fun hlt => absurd hlt (by linarith [h2.1]), fun hgt => absurd hgt (by linarith)⟩
  · have hjpos : 0 < jmin := lt_of_le_of_lt hy h3
    refine ⟨by positivity, ?_, fun hge => absurd hge (by linarith), fun _ => rfl, fun hgt => absurd hgt (by linarith)⟩
    rw [div_le_iff₀ hjpos]
    nlinarith
  · exfalso
    push_neg at h1 h2
    exact absurd (h2 (le_of_not_lt h3)) (by push_neg; linarith)
  · exfalso
    push_neg at h1 h2
    exact absurd (h2 (le_of_not_lt h3)) (by push_neg; linarith)

/-- Claim C6 witness: with bounds 3–7 years, 4 years scores 100 (inside the
interval), 8 years scores at least 70 (above the maximum), and 2 years
scores `100 × 2 / 3` (the linear ramp below the minimum); all values lie in
`[0, 100]`. -/
theorem experienceScore_spec_witness :
    experienceScore 1 4 3 7 = 100 ∧
    70 ≤ experienceScore 1 8 3 7 ∧
    experienceScore 1 2 3 7 = 100 * 2 / 3 ∧
    (0 ≤ experienceScore 1 2 3 7 ∧ experienceScore 1 2 3 7 ≤ 100) :=
  ⟨(experienceScore_spec 1 4 3 7 (by norm_num) (by norm_num)).2.2.1 (by norm_num),
   (experienceScore_spec 1 8 3 7 (by norm_num) (by norm_num)).2.2.2.2 (by norm_num),
   (experienceScore_spec 1 2 3 7 (by norm_num) (by norm_num)).2.2.2.1 (by norm_num),
   ⟨(experienceScore_spec 1 2 3 7 (by norm_num) (by norm_num)).1,
    (experienceScore_spec 1 2 3 7 (by norm_num) (by norm_num)).2.1⟩⟩

/-- Claim C1 counterexample: the first result rendered by the results page
(`fetchResults` in `EvaluationResults.js`) does not satisfy
`overallScore = round(0.5 × skillsScore + 0.3 × experienceScore +
0.2 × educationScore)`: its sub-scores 85 / 90 / 85 give
`round(86.5) = 87`, but its overall relevance score is `87.5`. -/
theorem overall_equation_fails_on_results_page :
    johnSmithRow ∈ mockResults ∧
    johnSmithRow.relevance_score ≠
      ((roundHalfUp (1 / 2 * johnSmithRow.skills_match_score
          + 3 / 10 * johnSmithRow.experience_match_score
          + 1 / 5 * johnSmithRow.education_match_score) : ℤ) : ℚ) := by
  constructor
  · simp [mockResults]
  · have h : roundHalfUp (1 / 2 * johnSmithRow.skills_match_score
        + 3 / 10 * johnSmithRow.experience_match_score
        + 1 / 5 * johnSmithRow.education_match_score) = 87 := by
      simp only [johnSmithRow]
      norm_num [roundHalfUp, Int.floor_eq_iff]
    rw [h]
    simp only [johnSmithRow]
    norm_num

/-- Claim C1 (amended): for every evaluation produced by the scoring
pipeline, the overall score equals
`round(0.5 × skillsScore + 0.3 × experienceScore + 0.2 × educationScore)`
with round-half-up over the result's own three sub-scores, the verdict is
classified from that overall score, and identical (job, resume) inputs yield
the identical result; the hard-coded demo rows rendered by the results page
do not satisfy this equation. -/
theorem evaluate_overall_equation (tol stp : ℚ) (job j2 : JobRequirement)
    (resume r2 : ParsedResume) (hj : job = j2) (hr : resume = r2) :
    (evaluate tol stp job resume).overallScore =
      roundHalfUp (1 / 2 * (evaluate tol stp job resume).skillsScore
        + 3 / 10 * (evaluate tol stp job resume).experienceScore
        + 1 / 5 * (evaluate tol stp job resume).educationScore) ∧
    (evaluate tol stp job resume).verdict =
      verdictOf (evaluate tol stp job resume).overallScore ∧
    evaluate tol stp job resume = evaluate tol stp j2 r2 := by
  subst hj
  subst hr
  exact ⟨rfl, rfl, rfl⟩

/-- Claim C1 witness: the amended claim instantiated on the spec §8 example
job and resume. -/
theorem evaluate_overall_equation_witness :
    (evaluate 1 25 exampleJob exampleResumeSecond).overallScore =
      roundHalfUp (1 / 2 * (evaluate 1 25 exampleJob exampleResumeSecond).skillsScore
        + 3 / 10 * (evaluate 1 25 exampleJob exampleResumeSecond).experienceScore
        + 1 / 5 * (evaluate 1 25 exampleJob exampleResumeSecond).educationScore) ∧
    (evaluate 1 25 exampleJob exampleResumeSecond).verdict =
      verdictOf (evaluate 1 25 exampleJob exampleResumeSecond).overallScore ∧
    evaluate 1 25 exampleJob exampleResumeSecond =
      evaluate 1 25 exampleJob exampleResumeSecond :=
  evaluate_overall_equation 1 25 exampleJob exampleJob
    exampleResumeSecond exampleResumeSecond rfl rfl

/-- Claim C3 counterexample: the results page renders all of its mock rows
for the single job of the page, yet the first and second rendered rows have
different values of `matchedSkills ∪ missingSkills`, so the union cannot
equal the one job's required skill set for every rendered result. -/
theorem skill_union_differs_on_results_page :
    johnSmithRow ∈ mockResults ∧ sarahJohnsonRow ∈ mockResults ∧
    johnSmithRow.matched_skills.toFinset ∪ johnSmithRow.missing_skills.toFinset ≠
      sarahJohnsonRow.matched_skills.toFinset ∪ sarahJohnsonRow.missing_skills.toFinset := by
  refine ⟨by simp [mockResults], by simp [mockResults], ?_⟩
  decide

/-- Claim C3 (amended): for every evaluation produced by the scoring
pipeline, `matchedSkills` and `missingSkills` form an exact partition of the
job's (normalized) required skill set — their union is the required set,
they are disjoint, the matched set is a subset of the required set, and the
missing set is the required set minus the matched set; when the job stores
its required skills in canonical form (§3) the union is literally
`job.requiredSkills` as a set.  The hard-coded demo rows rendered by the
results page do not satisfy this invariant. -/
theorem evaluate_skill_partition (tol stp : ℚ) (job : JobRequirement)
    (resume : ParsedResume)
    (hnorm : ∀ s ∈ job.requiredSkills, normalizeSkill s = s) :
    (evaluate tol stp job resume).matchedSkills ∪
        (evaluate tol stp job resume).missingSkills =
      (job.requiredSkills.map normalizeSkill).toFinset ∧
    (evaluate tol stp job resume).matchedSkills ∩
        (evaluate tol stp job resume).missingSkills = ∅ ∧
    (evaluate tol stp job resume).matchedSkills ⊆
      (job.requiredSkills.map normalizeSkill).toFinset ∧
    (evaluate tol stp job resume).missingSkills =
      (job.requiredSkills.map normalizeSkill).toFinset \
        (evaluate tol stp job resume).matchedSkills ∧
    (evaluate tol stp job resume).matchedSkills ∪
        (evaluate tol stp job resume).missingSkills =
      job.requiredSkills.toFinset := by
  have hgen : ∀ l : List String, (∀ s ∈ l, normalizeSkill s = s) →
      l.map normalizeSkill = l := by
    intro l
    induction l with
    | nil => intro _; rfl
    | cons a t ih =>
        intro hl
        simp only [List.map_cons, List.cons.injEq]
        exact ⟨hl a (List.mem_cons_self a t),
          ih fun s hs => hl s (List.mem_cons_of_mem a hs)⟩
  have hmap : job.requiredSkills.map normalizeSkill = job.requiredSkills :=
    hgen job.requiredSkills hnorm
  refine ⟨?_, ?_, ?_, rfl, ?_⟩
  · show matchedSkills resume.skills job.requiredSkills ∪
        missingSkills resume.skills job.requiredSkills = _
    unfold missingSkills matchedSkills
    ext a
    simp only [Finset.mem_union, Finset.mem_inter, Finset.mem_sdiff]
    tauto
  · show matchedSkills resume.skills job.requiredSkills ∩
        missingSkills resume.skills job.requiredSkills = ∅
    unfold missingSkills
    ext a
    simp only [Finset.mem_inter, Finset.mem_sdiff, Finset.not_mem_empty, iff_false]
    tauto
  · show matchedSkills resume.skills job.requiredSkills ⊆ _
    unfold matchedSkills
    exact Finset.inter_subset_left
  · show matchedSkills resume.skills job.requiredSkills ∪
        missingSkills resume.skills job.requiredSkills = _
    unfold missingSkills matchedSkills
    rw [hmap]
    ext a
    simp only [Finset.mem_union, Finset.mem_inter, Finset.mem_sdiff]
    tauto

/-- Claim C3 witness: the partition invariant instantiated on a job whose
required skills are stored in canonical form and the spec §8 resume. -/
theorem evaluate_skill_partition_witness :
    (evaluate 1 25 exampleJobNormalized exampleResumeSecond).matchedSkills ∪
        (evaluate 1 25 exampleJobNormalized exampleResumeSecond).missingSkills =
      exampleJobNormalized.requiredSkills.toFinset ∧
    (evaluate 1 25 exampleJobNormalized exampleResumeSecond).matchedSkills ∩
        (evaluate 1 25 exampleJobNormalized exampleResumeSecond).missingSkills = ∅ :=
  ⟨(evaluate_skill_partition 1 25 exampleJobNormalized exampleResumeSecond
      (by decide)).2.2.2.2,
   (evaluate_skill_partition 1 25 exampleJobNormalized exampleResumeSecond
      (by decide)).2.1⟩

/-- Folding `stepItem` over a batch adds the item count to `processed`,
counts successes and failures, appends the outcomes in order and leaves the
status untouched. -/
lemma foldl_stepItem_spec {α β : Type} (f : α → Option β) (items : List α)
    (b : BatchRun β) :
    (items.foldl (fun acc i => stepItem acc (f i)) b).processed =
        b.processed + items.length ∧
    (items.foldl (fun acc i => stepItem acc (f i)) b).succeeded =
        b.succeeded + items.countP (fun i => (f i).isSome) ∧
    (items.foldl (fun acc i => stepItem acc (f i)) b).failed =
        b.failed + items.countP (fun i => (f i).isNone) ∧
    (items.foldl (fun acc i => stepItem acc (f i)) b).outcomes =
        b.outcomes ++ items.map f ∧
    (items.foldl (fun acc i => stepItem acc (f i)) b).status = b.status := by
  induction items generalizing b with
  | nil => simp
  | cons i rest ih =>
      obtain ⟨h1, h2, h3, h4, h5⟩ := ih (stepItem b (f i))
      simp only [List.foldl_cons, List.countP_cons, List.map_cons] at *
      refine ⟨?_, ?_, ?_, ?_, ?_⟩
      · rw [h1]
        simp [stepItem]
        omega
      · rw [h2]
        cases hfi : f i <;> simp [stepItem, hfi] <;> omega
      · rw [h3]
        cases hfi : f i <;> simp [stepItem, hfi] <;> omega
      · rw [h4]
        simp [stepItem]
      · rw [h5]
        rfl

/-- A list splits into the items whose outcome is a success and those whose
outcome is a failure. -/
lemma countP_isSome_add_isNone {α β : Type} (f : α → Option β) (l : List α) :
    l.countP (fun i => (f i).isSome) + l.countP (fun i => (f i).isNone) =
      l.length := by
  induction l with
  | nil => simp
  | cons i rest ih =>
      cases hfi : f i <;> simp [List.countP_cons, hfi] <;> omega

/-- Claim C4: a batch over `N` resumes with a valid job requirement ends with
`processed = N`, `succeeded + failed = N`, `failed` equal to the number of
items whose evaluation failed, terminal status `Completed` (never `Failed`),
and a per-item outcome list that is exactly the item-wise image of the
evaluation — so one item's failure never changes a sibling's outcome or the
batch status.  Additionally, every batch record rendered by the batch page
has `processed ≤ total` and its per-verdict counts sum to the processed
count. -/
theorem runBatch_counts {α β : Type} (f : α → Option β) (items : List α)
    (jobValid : Bool) (hvalid : jobValid = true) :
    (runBatch jobValid f items).processed = items.length ∧
    (runBatch jobValid f items).succeeded + (runBatch jobValid f items).failed =
      items.length ∧
    (runBatch jobValid f items).failed =
      items.countP (fun i => (f i).isNone) ∧
    (runBatch jobValid f items).status = .Completed ∧
    (runBatch jobValid f items).outcomes = items.map f ∧
    (∀ b ∈ mockBatches, b.processed_resumes ≤ b.total_resumes ∧
      b.high_fit_count + b.medium_fit_count + b.low_fit_count =
        b.processed_resumes) := by
  subst hvalid
  obtain ⟨h1, h2, h3, h4, h5⟩ := foldl_stepItem_spec f items (initRun β)
  have hsplit := countP_isSome_add_isNone f items
  refine ⟨?_, ?_, ?_, ?_, ?_, ?_⟩
  · show (items.foldl (fun b i => stepItem b (f i)) (initRun β)).processed = _
    rw [h1]
    simp [initRun]
  · show (items.foldl (fun b i => stepItem b (f i)) (initRun β)).succeeded +
        (items.foldl (fun b i => stepItem b (f i)) (initRun β)).failed = _
    rw [h2, h3]
    simp only [initRun]
    omega
  · show (items.foldl (fun b i => stepItem b (f i)) (initRun β)).failed = _
    rw [h3]
    simp [initRun]
  · show BatchStatus.Completed = BatchStatus.Completed
    rfl
  · show (items.foldl (fun b i => stepItem b (f i)) (initRun β)).outcomes = _
    rw [h4]
    simp [initRun]
  · intro b hb
    fin_cases hb <;> simp [mockBatches]

/-- Claim C4 witness: a concrete batch of three items of which exactly one
fails — processed 3, succeeded 2, failed 1, status Completed, outcomes
item-wise — together with the rendered mock batch records. -/
theorem runBatch_counts_witness :
    (runBatch true (fun n : ℕ => if n = 2 then none else some n) [1, 2, 3]).processed =
      ([1, 2, 3] : List ℕ).length ∧
    (runBatch true (fun n : ℕ => if n = 2 then none else some n) [1, 2, 3]).succeeded +
        (runBatch true (fun n : ℕ => if n = 2 then none else some n) [1, 2, 3]).failed =
      ([1, 2, 3] : List ℕ).length ∧
    (runBatch true (fun n : ℕ => if n = 2 then none else some n) [1, 2, 3]).failed =
      ([1, 2, 3] : List ℕ).countP
        (fun i => ((fun n : ℕ => if n = 2 then none else some n) i).isNone) ∧
    (runBatch true (fun n : ℕ => if n = 2 then none else some n) [1, 2, 3]).status =
      .Completed ∧
    (runBatch true (fun n : ℕ => if n = 2 then none else some n) [1, 2, 3]).outcomes =
      ([1, 2, 3] : List ℕ).map (fun n : ℕ => if n = 2 then none else some n) ∧
    (∀ b ∈ mockBatches, b.processed_resumes ≤ b.total_resumes ∧
      b.high_fit_count + b.medium_fit_count + b.low_fit_count =
        b.processed_resumes) :=
  runBatch_counts (fun n : ℕ => if n = 2 then none else some n) [1, 2, 3] true rfl

/-- The head of a cancelled run: the items dispatched before the flag flips
are evaluated exactly as in an uncancelled run, the rest are never started. -/
lemma runCancel_take_drop {α β : Type} (f : α → β) (items : List α) (k : ℕ) :
    (runCancel f items k).1 = (items.take k).map f ∧
    (runCancel f items k).2 = items.drop k := by
  induction items generalizing k with
  | nil => cases k <;> simp [runCancel]
  | cons i rest ih =>
      cases k with
      | zero => simp [runCancel]
      | succ k => simp [runCancel, (ih k).1, (ih k).2]

/-- Claim C7: cooperative cancellation after `k` dispatched items — every
dispatched item reaches its terminal outcome and that outcome is exactly the
one an uncancelled run would record (a prefix of the full outcome list),
items not yet dispatched never begin (they remain in the untouched
remainder), and the batch ends `Cancelled` when cancellation struck before
the last item, `Completed` otherwise. -/
theorem runCancel_spec {α β : Type} (f : α → β) (items : List α) (k : ℕ) :
    (runCancel f items k).1 = (items.take k).map f ∧
    (runCancel f items k).2 = items.drop k ∧
    (runCancel f items k).1 = ((runCancel f items items.length).1).take k ∧
    (k < items.length → cancelStatus (runCancel f items k) = .Cancelled) ∧
    (items.length ≤ k → cancelStatus (runCancel f items k) = .Completed) := by
  obtain ⟨h1, h2⟩ := runCancel_take_drop f items k
  obtain ⟨g1, g2⟩ := runCancel_take_drop f items items.length
  refine ⟨h1, h2, ?_, ?_, ?_⟩
  · rw [h1, g1, List.take_length, List.map_take]
  · intro hk
    have hdrop : items.drop k ≠ [] := by
      simp [List.drop_eq_nil_iff]
      omega
    simp [cancelStatus, h2, List.isEmpty_iff, hdrop]
  · intro hk
    have hdrop : items.drop k = [] := by
      simp [List.drop_eq_nil_iff]
      omega
    simp [cancelStatus, h2, List.isEmpty_iff, hdrop]

/-- Claim C7 witness: cancelling a three-item batch after two dispatches —
the two dispatched items reach the outcomes of the uncancelled run, the
third never starts, the batch is Cancelled; with no cancellation the same
batch Completes. -/
theorem runCancel_spec_witness :
    (runCancel (fun n : ℕ => n + 1) [1, 2, 3] 2).1 =
      (([1, 2, 3] : List ℕ).take 2).map (fun n : ℕ => n + 1) ∧
    (runCancel (fun n : ℕ => n + 1) [1, 2, 3] 2).2 =
      ([1, 2, 3] : List ℕ).drop 2 ∧
    cancelStatus (runCancel (fun n : ℕ => n + 1) [1, 2, 3] 2) = .Cancelled ∧
    cancelStatus (runCancel (fun n : ℕ => n + 1) [1, 2, 3] 3) = .Completed :=
  ⟨(runCancel_spec (fun n : ℕ => n + 1) [1, 2, 3] 2).1,
   (runCancel_spec (fun n : ℕ => n + 1) [1, 2, 3] 2).2.1,
   (runCancel_spec (fun n : ℕ => n + 1) [1, 2, 3] 2).2.2.2.1 (by norm_num),
   (runCancel_spec (fun n : ℕ => n + 1) [1, 2, 3] 3).2.2.2.2 (by norm_num)⟩

/-- Validation of the modelled pipeline against the second spec §8 worked
example: resume skills Python/SQL/Machine Learning against required skills
Python/React/AWS/Docker (1 of 4 matched), 4 years against 3–7, bachelor
against bachelor — skills 25, experience 100, education 100, overall
`round(62.5) = 63`, verdict Medium, missing skills react/aws/docker. -/
theorem evaluate_spec_example_values :
    (evaluate 1 25 exampleJob exampleResumeSecond).skillsScore = 25 ∧
    (evaluate 1 25 exampleJob exampleResumeSecond).experienceScore = 100 ∧
    (evaluate 1 25 exampleJob exampleResumeSecond).educationScore = 100 ∧
    (evaluate 1 25 exampleJob exampleResumeSecond).overallScore = 63 ∧
    (evaluate 1 25 exampleJob exampleResumeSecond).verdict = .Medium ∧
    (evaluate 1 25 exampleJob exampleResumeSecond).missingSkills =
      {"react", "aws", "docker"} := by
  have hs : skillsScore exampleResumeSecond.skills exampleJob.requiredSkills = 25 := by
    have hm : (matchedSkills exampleResumeSecond.skills exampleJob.requiredSkills).card
        = 1 := by decide
    have hr : ((exampleJob.requiredSkills.map normalizeSkill).toFinset).card = 4 := by
      decide
    simp only [skillsScore, hm, hr]
    norm_num
  have he : experienceScore 1 exampleResumeSecond.totalYears exampleJob.minYears
      exampleJob.maxYears = 100 := by
    show experienceScore 1 4 3 7 = 100
    unfold experienceScore
    norm_num
  have hd : educationScore 25 exampleResumeSecond.education exampleJob.minEducation
      = 100 := by
    show educationScore 25 .bachelor .bachelor = 100
    simp [educationScore]
  have ho : (evaluate 1 25 exampleJob exampleResumeSecond).overallScore = 63 := by
    show roundHalfUp (1 / 2 * skillsScore exampleResumeSecond.skills exampleJob.requiredSkills
        + 3 / 10 * experienceScore 1 exampleResumeSecond.totalYears exampleJob.minYears
            exampleJob.maxYears
        + 1 / 5 * educationScore 25 exampleResumeSecond.education exampleJob.minEducation)
      = 63
    rw [hs, he, hd]
    norm_num [roundHalfUp, Int.floor_eq_iff]
  refine ⟨hs, he, hd, ho, ?_, ?_⟩
  · show verdictOf (evaluate 1 25 exampleJob exampleResumeSecond).overallScore = .Medium
    rw [ho]
    decide
  · show missingSkills exampleResumeSecond.skills exampleJob.requiredSkills = _
    decide

end ResumeRelevance
